import Mathlib

/-!
Verification of `crypto-helper/main.go`.

A shallow embedding of `crypto-helper/main.go` (the two HTTP handlers
`generatorHandler` and `timestampHandler`, the package initialiser `init`,
and the pieces of the Go standard library they call), followed by theorems
about that embedding.

Go strings and byte slices are both modelled as lists of octets. Calls that leave
`main.go` and whose result depends on the outside world or on a library that is not part of
the repository (key generation, signing, PKIX marshalling, JSON encoding, `http.Post`, the
seeded pseudo-random draw) are fields of an environment record; `encoding/hex`,
`encoding/base64`, `crypto/sha256`, `http.Error` and the `Int63` mask are modelled
concretely. Every handler returns, next to the response writer, the list of outside calls
it made, in order.
-/

namespace CryptoHelper

/-! ## Bytes and Go strings -/

/-- One octet. -/
abbrev Byte := Fin 256

/-- Go `[]byte` and Go `string`: a finite sequence of octets. -/
abbrev Bytes := List Byte

/-- The octets of a source-code string literal (every literal of `main.go` is ASCII,
so the UTF-8 encoding is one octet per character). -/
def str (s : String) : Bytes := s.toList.map (fun c => Fin.ofNat c.toNat)

/-! ## encoding/hex -/

/-- The table `hextable` of Go's `encoding/hex`. -/
def hextable : Bytes := str "0123456789abcdef"

/-- Go `hex.EncodeToString`: two lowercase digits per octet, high nibble first. -/
def hexEncodeToString : Bytes → Bytes
  | [] => []
  | v :: rest =>
    hextable.getD (v.val >>> 4) 0 :: hextable.getD (v.val &&& 0x0f) 0 :: hexEncodeToString rest

/-- The value of one hexadecimal digit (Go `fromHexChar`). -/
def fromHexChar (c : Byte) : Option Nat :=
  if 48 ≤ c.val ∧ c.val ≤ 57 then some (c.val - 48)
  else if 97 ≤ c.val ∧ c.val ≤ 102 then some (c.val - 97 + 10)
  else if 65 ≤ c.val ∧ c.val ≤ 70 then some (c.val - 65 + 10)
  else none

/-- Go `hex.DecodeString`: pairs of digits, `none` on an odd length or a bad digit. -/
def hexDecodeString : Bytes → Option Bytes
  | [] => some []
  | [_] => none
  | p :: q :: rest =>
    match fromHexChar p, fromHexChar q, hexDecodeString rest with
    | some a, some b, some out => some (Fin.ofNat ((a <<< 4) ||| b) :: out)
    | _, _, _ => none

/-! ## encoding/base64, `StdEncoding` (RFC 4648 section 4, with padding) -/

/-- The alphabet `encodeStd` of Go's `encoding/base64`. -/
def encodeStd : Bytes :=
  str "ABCDEFGHIJKLMNOPQRSTUVWXYZabcdefghijklmnopqrstuvwxyz0123456789+/"

/-- The padding character `StdPadding`, `'='`. -/
def stdPadding : Byte := 61

/-- The character for one 6-bit value: `enc.encode[v & 0x3F]`. -/
def encodeSextet (v : Nat) : Byte := encodeStd.getD (v &&& 0x3F) 0

/-- Go `base64.StdEncoding.EncodeToString`: full 3-octet groups give 4 characters;
a remainder of 1 or 2 octets gives 2 or 3 characters followed by padding. -/
def base64EncodeToString : Bytes → Bytes
  | [] => []
  | [a] =>
    let val := a.val <<< 16
    [encodeSextet (val >>> 18), encodeSextet (val >>> 12), stdPadding, stdPadding]
  | [a, b] =>
    let val := (a.val <<< 16) ||| (b.val <<< 8)
    [encodeSextet (val >>> 18), encodeSextet (val >>> 12), encodeSextet (val >>> 6), stdPadding]
  | a :: b :: c :: rest =>
    let val := (a.val <<< 16) ||| (b.val <<< 8) ||| c.val
    encodeSextet (val >>> 18) :: encodeSextet (val >>> 12) :: encodeSextet (val >>> 6)
      :: encodeSextet val :: base64EncodeToString rest

/-- The 6-bit value of one alphabet character (the inverse table `decodeMap`). -/
def decodeSextet (c : Byte) : Option Nat :=
  if 65 ≤ c.val ∧ c.val ≤ 90 then some (c.val - 65)
  else if 97 ≤ c.val ∧ c.val ≤ 122 then some (c.val - 97 + 26)
  else if 48 ≤ c.val ∧ c.val ≤ 57 then some (c.val - 48 + 52)
  else if c.val = 43 then some 62
  else if c.val = 47 then some 63
  else none

/-- Standard padded base64 decoding (RFC 4648 section 4): groups of four characters,
padding allowed only in the last group, `none` on anything else. -/
def base64DecodeString : Bytes → Option Bytes
  | [] => some []
  | [p, q, r, s] =>
    if r = stdPadding ∧ s = stdPadding then
      match decodeSextet p, decodeSextet q with
      | some x, some y =>
        let val := (x <<< 18) ||| (y <<< 12)
        some [Fin.ofNat (val >>> 16)]
      | _, _ => none
    else if s = stdPadding then
      match decodeSextet p, decodeSextet q, decodeSextet r with
      | some x, some y, some z =>
        let val := (x <<< 18) ||| (y <<< 12) ||| (z <<< 6)
        some [Fin.ofNat (val >>> 16), Fin.ofNat (val >>> 8)]
      | _, _, _ => none
    else
      match decodeSextet p, decodeSextet q, decodeSextet r, decodeSextet s with
      | some x, some y, some z, some t =>
        let val := (x <<< 18) ||| (y <<< 12) ||| (z <<< 6) ||| t
        some [Fin.ofNat (val >>> 16), Fin.ofNat (val >>> 8), Fin.ofNat val]
      | _, _, _, _ => none
  | p :: q :: r :: s :: rest =>
    match decodeSextet p, decodeSextet q, decodeSextet r, decodeSextet s,
        base64DecodeString rest with
    | some x, some y, some z, some t, some out =>
      let val := (x <<< 18) ||| (y <<< 12) ||| (z <<< 6) ||| t
      some (Fin.ofNat (val >>> 16) :: Fin.ofNat (val >>> 8) :: Fin.ofNat val :: out)
    | _, _, _, _, _ => none
  | _ => none

/-! ## crypto/sha256 (FIPS 180-4), after Go's generic block function -/

/-- The round constants `_K` of `sha256block.go`. -/
def sha256K : List Nat := [
    0x428a2f98, 0x71374491, 0xb5c0fbcf, 0xe9b5dba5,
    0x3956c25b, 0x59f111f1, 0x923f82a4, 0xab1c5ed5,
    0xd807aa98, 0x12835b01, 0x243185be, 0x550c7dc3,
    0x72be5d74, 0x80deb1fe, 0x9bdc06a7, 0xc19bf174,
    0xe49b69c1, 0xefbe4786, 0x0fc19dc6, 0x240ca1cc,
    0x2de92c6f, 0x4a7484aa, 0x5cb0a9dc, 0x76f988da,
    0x983e5152, 0xa831c66d, 0xb00327c8, 0xbf597fc7,
    0xc6e00bf3, 0xd5a79147, 0x06ca6351, 0x14292967,
    0x27b70a85, 0x2e1b2138, 0x4d2c6dfc, 0x53380d13,
    0x650a7354, 0x766a0abb, 0x81c2c92e, 0x92722c85,
    0xa2bfe8a1, 0xa81a664b, 0xc24b8b70, 0xc76c51a3,
    0xd192e819, 0xd6990624, 0xf40e3585, 0x106aa070,
    0x19a4c116, 0x1e376c08, 0x2748774c, 0x34b0bcb5,
    0x391c0cb3, 0x4ed8aa4a, 0x5b9cca4f, 0x682e6ff3,
    0x748f82ee, 0x78a5636f, 0x84c87814, 0x8cc70208,
    0x90befffa, 0xa4506ceb, 0xbef9a3f7, 0xc67178f2]

/-- The eight 32-bit working registers `h[0..7]` of the digest. -/
structure Regs where
  a : Nat
  b : Nat
  c : Nat
  d : Nat
  e : Nat
  f : Nat
  g : Nat
  h : Nat
  deriving DecidableEq

/-- The initial state `init0 .. init7`. -/
def sha256Init : Regs :=
  { a := 0x6a09e667, b := 0xbb67ae85, c := 0x3c6ef372, d := 0xa54ff53a,
    e := 0x510e527f, f := 0x9b05688c, g := 0x1f83d9ab, h := 0x5be0cd19 }

/-- The call `bits.RotateLeft32(x, -n)` on a 32-bit word. -/
def rotr32 (x n : Nat) : Nat := ((x >>> n) ||| (x <<< (32 - n))) % 2 ^ 32

/-- Bitwise complement of a 32-bit word (Go `^x` on `uint32`). -/
def not32 (x : Nat) : Nat := x ^^^ 0xffffffff

/-- Big-endian load of the 32-bit words of a chunk. -/
def loadWords : Bytes → List Nat
  | p0 :: p1 :: p2 :: p3 :: rest =>
    ((p0.val <<< 24) ||| (p1.val <<< 16) ||| (p2.val <<< 8) ||| p3.val) :: loadWords rest
  | _ => []

/-- The message schedule: `n` further words `w[i]`, each from `w[i-2]`, `w[i-7]`,
`w[i-15]` and `w[i-16]`. -/
def extendSchedule : Nat → List Nat → List Nat
  | 0, w => w
  | n + 1, w =>
    let i := w.length
    let v1 := w.getD (i - 2) 0
    let t1 := rotr32 v1 17 ^^^ rotr32 v1 19 ^^^ (v1 >>> 10)
    let v2 := w.getD (i - 15) 0
    let t2 := rotr32 v2 7 ^^^ rotr32 v2 18 ^^^ (v2 >>> 3)
    extendSchedule n (w ++ [(t1 + w.getD (i - 7) 0 + t2 + w.getD (i - 16) 0) % 2 ^ 32])

/-- One of the 64 rounds of the compression function. -/
def sha256Round (r : Regs) (kw : Nat × Nat) : Regs :=
  let t1 := (r.h + (rotr32 r.e 6 ^^^ rotr32 r.e 11 ^^^ rotr32 r.e 25)
    + ((r.e &&& r.f) ^^^ (not32 r.e &&& r.g)) + kw.1 + kw.2) % 2 ^ 32
  let t2 := ((rotr32 r.a 2 ^^^ rotr32 r.a 13 ^^^ rotr32 r.a 22)
    + ((r.a &&& r.b) ^^^ (r.a &&& r.c) ^^^ (r.b &&& r.c))) % 2 ^ 32
  { h := r.g, g := r.f, f := r.e, e := (r.d + t1) % 2 ^ 32,
    d := r.c, c := r.b, b := r.a, a := (t1 + t2) % 2 ^ 32 }

/-- The compression of one 64-octet chunk into the state. -/
def sha256Chunk (s : Regs) (chunk : Bytes) : Regs :=
  let w := extendSchedule 48 (loadWords chunk)
  let r := (sha256K.zip w).foldl sha256Round s
  { a := (s.a + r.a) % 2 ^ 32, b := (s.b + r.b) % 2 ^ 32, c := (s.c + r.c) % 2 ^ 32,
    d := (s.d + r.d) % 2 ^ 32, e := (s.e + r.e) % 2 ^ 32, f := (s.f + r.f) % 2 ^ 32,
    g := (s.g + r.g) % 2 ^ 32, h := (s.h + r.h) % 2 ^ 32 }

/-- The loop of `blockGeneric`: `n` chunks of 64 octets are consumed from `p`. -/
def sha256Blocks : Nat → Regs → Bytes → Regs
  | 0, s, _ => s
  | n + 1, s, p => sha256Blocks n (sha256Chunk s (p.take 64)) (p.drop 64)

/-- Big-endian store of a 64-bit value (`binary.BigEndian.PutUint64`). -/
def putUint64 (v : Nat) : Bytes :=
  [Fin.ofNat (v >>> 56), Fin.ofNat (v >>> 48), Fin.ofNat (v >>> 40), Fin.ofNat (v >>> 32),
   Fin.ofNat (v >>> 24), Fin.ofNat (v >>> 16), Fin.ofNat (v >>> 8), Fin.ofNat v]

/-- Big-endian store of a 32-bit value (`binary.BigEndian.PutUint32`). -/
def putUint32 (v : Nat) : Bytes :=
  [Fin.ofNat (v >>> 24), Fin.ofNat (v >>> 16), Fin.ofNat (v >>> 8), Fin.ofNat v]

/-- The padding written by `checkSum`: a `0x80` octet, zeros up to 56 modulo 64, then the
bit length as a 64-bit big-endian value. -/
def sha256Padding (len : Nat) : Bytes :=
  let t := if len % 64 < 56 then 56 - len % 64 else 64 + 56 - len % 64
  ((128 : Byte) :: List.replicate (t - 1) 0) ++ putUint64 ((len <<< 3) % 2 ^ 64)

/-- Go `sha256.Sum256`: the 32-octet SHA-256 digest of `data`. -/
def sha256Sum256 (data : Bytes) : Bytes :=
  let p := data ++ sha256Padding data.length
  let s := sha256Blocks (p.length / 64) sha256Init p
  putUint32 s.a ++ putUint32 s.b ++ putUint32 s.c ++ putUint32 s.d
    ++ putUint32 s.e ++ putUint32 s.f ++ putUint32 s.g ++ putUint32 s.h

/-! ## math/rand: `Int63` of a freshly seeded source -/

/-- The constant `rngMask = 1<<63 - 1` of `math/rand`. -/
def rngMask : Nat := (1 <<< 63) - 1

/-- Conversion of a 64-bit pattern to Go `int64` (two's complement). -/
def toInt64 (v : Nat) : Int :=
  if v % 2 ^ 64 < 2 ^ 63 then ((v % 2 ^ 64 : Nat) : Int) else ((v % 2 ^ 64 : Nat) : Int) - 2 ^ 64

/-- The method `rngSource.Int63`: `int64(rng.Uint64() & rngMask)`, where `u` is the 64-bit
value drawn by `Uint64`. -/
def int63 (u : Nat) : Int := toInt64 ((u % 2 ^ 64) &&& rngMask)

/-! ## io and net/http -/

/-- An `io.Reader` holding `content`; when `failure = some (k, err)` reading stops with the
error `err` after `k` octets. -/
structure Reader where
  content : Bytes
  failure : Option (Nat × Bytes)

/-- Go `io.ReadAll`: the octets read and the error, if any. -/
def ioReadAll (r : Reader) : Bytes × Option Bytes :=
  match r.failure with
  | none => (r.content, none)
  | some (k, err) => (r.content.take k, some err)

/-- The state of an `http.ResponseWriter`: the header map, the status line once it is sent,
the body written so far and the number of `Write` calls. -/
structure ResponseWriter where
  header : List (Bytes × Bytes)
  status : Option Nat
  body : Bytes
  writes : Nat
  deriving DecidableEq

/-- A fresh response writer, as the server hands it to a handler. -/
def newResponseWriter : ResponseWriter := { header := [], status := none, body := [], writes := 0 }

/-- The call `w.Header().Set(key, value)`; it has no effect once the status line is sent. -/
def headerSet (w : ResponseWriter) (key value : Bytes) : ResponseWriter :=
  if w.status.isSome then w
  else { w with header := (key, value) :: w.header.filter (fun kv => kv.1 ≠ key) }

/-- The call `w.WriteHeader(code)`; a second call is ignored. -/
def writeHeader (w : ResponseWriter) (code : Nat) : ResponseWriter :=
  if w.status.isSome then w else { w with status := some code }

/-- The call `w.Write(data)`; the first write sends status 200 unless one was sent. -/
def write (w : ResponseWriter) (data : Bytes) : ResponseWriter :=
  let w1 := writeHeader w 200
  { w1 with body := w1.body ++ data, writes := w1.writes + 1 }

/-- Go `http.Error`: a plain-text reply with the given status. -/
def httpError (w : ResponseWriter) (error : Bytes) (code : Nat) : ResponseWriter :=
  let w1 := headerSet w (str "Content-Type") (str "text/plain; charset=utf-8")
  let w2 := headerSet w1 (str "X-Content-Type-Options") (str "nosniff")
  let w3 := writeHeader w2 code
  write w3 (error ++ str "\n")

/-- The value of a header in the map. -/
def headerGet (w : ResponseWriter) (key : Bytes) : Option Bytes :=
  (w.header.find? (fun kv => kv.1 = key)).map (fun kv => kv.2)

/-- The verb `%d` of `fmt` on a non-negative `int`. -/
def formatInt (n : Nat) : Bytes := str (Nat.repr n)

/-! ## The data model of `main.go` -/

/-- Go `TsaRequest`. -/
structure TsaRequest where
  artifactHash : Bytes
  certificates : Bool
  hashAlgorithm : Bytes
  nonce : Int
  deriving DecidableEq

/-- Go `CryptoComponents`. -/
structure CryptoComponents where
  publicKeyBase64 : Bytes
  signedEmailAddress : Bytes
  artifactHash : Bytes
  artifactSignature : Bytes
  deriving DecidableEq

/-- The package-level variables. -/
structure Globals where
  artifactHash : Bytes
  deriving DecidableEq

/-- The calls a handler makes outside its own body, in the order it makes them. -/
inductive Effect where
  | newSigner
  | marshalPKIXPublicKey
  | signMessage (message : Bytes)
  | signASN1 (digest : Bytes)
  | jsonEncode (v : CryptoComponents)
  | readRequestBody
  | getenv (key : Bytes)
  | timeNow
  | jsonMarshal (v : TsaRequest)
  | httpPost (url contentType body : Bytes)
  | readResponseBody
  | closeResponseBody
  deriving DecidableEq

/-- What one handler call leaves behind: the package variables, the response writer, the
calls made, and the message of `log.Fatalf` when the call terminated the process. -/
structure Outcome where
  globals : Globals
  w : ResponseWriter
  trace : List Effect
  fatal : Option Bytes

/-- Go `crypto/rand.Read(b)`: fills the whole of `b` from the entropy source, or fails. -/
def randRead (entropy : Except Bytes (Nat → Byte)) (b : Bytes) : Except Bytes Bytes :=
  match entropy with
  | .error err => .error err
  | .ok f => .ok ((List.range b.length).map f)

/-- Go `init`: the 32 random octets cached as `artifactHash`, or the message of `log.Fatalf`. -/
def init (entropy : Except Bytes (Nat → Byte)) : Except Bytes Globals :=
  let randomHash : Bytes := List.replicate 32 0
  match randRead entropy randomHash with
  | .error err => .error (str "[FATAL] Could not generate the global artifact hash: " ++ err)
  | .ok randomHash => .ok { artifactHash := randomHash }

/-! ## `generatorHandler` -/

/-- What `generatorHandler` obtains from outside `main.go`. `SK` and `PK` are the types of
ECDSA P-256 private and public keys.
* `newSigner`: the private key of `signature.NewECDSASignerVerifier(elliptic.P256(),
  rand.Reader, crypto.SHA256)`, or its error;
* `publicKey`: `privateKey.Public()`;
* `marshalPKIXPublicKey`: `x509.MarshalPKIXPublicKey`;
* `signASN1 k`: `ecdsa.SignASN1(rand.Reader, priv, digest)` at the `k`-th signature of the
  call (each signature draws fresh randomness);
* `jsonEncode`: the octets `json.NewEncoder(w).Encode` writes, or its error. -/
structure GeneratorEnv (SK PK : Type) where
  newSigner : Except Bytes SK
  publicKey : SK → PK
  marshalPKIXPublicKey : PK → Except Bytes Bytes
  signASN1 : Nat → SK → Bytes → Except Bytes Bytes
  jsonEncode : CryptoComponents → Except Bytes Bytes

/-- The method `SignMessage` of the sigstore ECDSA signer created with `crypto.SHA256`: the
message is hashed with SHA-256 and the digest signed with `ecdsa.SignASN1`. -/
def signMessage {SK PK : Type} (env : GeneratorEnv SK PK) (k : Nat) (priv : SK)
    (message : Bytes) : Except Bytes Bytes :=
  env.signASN1 k priv (sha256Sum256 message)

/-- Go `generatorHandler`. -/
def generatorHandler {SK PK : Type} (g : Globals) (env : GeneratorEnv SK PK) : Outcome :=
  let w := newResponseWriter
  match env.newSigner with
  | .error err =>
    { globals := g, fatal := none, trace := [.newSigner],
      w := httpError w (str "[ERROR] Error creating ECDSA signer: " ++ err) 500 }
  | .ok privateKey =>
    match env.marshalPKIXPublicKey (env.publicKey privateKey) with
    | .error err =>
      { globals := g, fatal := none, trace := [.newSigner, .marshalPKIXPublicKey],
        w := httpError w (str "[ERROR] Error marshalling public key: " ++ err) 500 }
    | .ok pubKeyBytes =>
      let publicKeyBase64 := base64EncodeToString pubKeyBytes
      let emailToSign := str "jdoe@redhat.com"
      match signMessage env 0 privateKey emailToSign with
      | .error _ =>
        { globals := g, fatal := none,
          trace := [.newSigner, .marshalPKIXPublicKey, .signMessage emailToSign],
          w := httpError w (str "[ERROR] Error signing email address") 500 }
      | .ok proofOfPossession =>
        match env.signASN1 1 privateKey g.artifactHash with
        | .error err =>
          { globals := g, fatal := none,
            trace := [.newSigner, .marshalPKIXPublicKey, .signMessage emailToSign,
              .signASN1 g.artifactHash],
            w := httpError w (str "[ERROR] Error signing artifact hash: " ++ err) 500 }
        | .ok artifactSignature =>
          let response : CryptoComponents :=
            { publicKeyBase64 := publicKeyBase64,
              signedEmailAddress := base64EncodeToString proofOfPossession,
              artifactHash := hexEncodeToString g.artifactHash,
              artifactSignature := base64EncodeToString artifactSignature }
          let w1 := headerSet w (str "Content-Type") (str "application/json")
          { globals := g, fatal := none,
            trace := [.newSigner, .marshalPKIXPublicKey, .signMessage emailToSign,
              .signASN1 g.artifactHash, .jsonEncode response],
            w := match env.jsonEncode response with
              | .error _ => w1
              | .ok encoded => write w1 encoded }

/-! ## `timestampHandler` -/

/-- The response of `http.Post`: the status code and the body stream. -/
structure TsaResponse where
  statusCode : Nat
  body : Reader

/-- What `timestampHandler` obtains from outside `main.go`.
* `method`, `body`: `r.Method` and `r.Body`;
* `tsaURL`: `os.Getenv("TSA_URL")`, empty when the variable is unset;
* `unixNano`: `time.Now().UnixNano()`;
* `rngUint64 seed`: the first `Uint64()` of `mrand.New(mrand.NewSource(seed))`;
* `jsonMarshal`: `json.Marshal`;
* `httpPost url contentType body`: `http.Post`, the response or the network error. -/
structure TimestampEnv where
  method : Bytes
  body : Reader
  tsaURL : Bytes
  unixNano : Int
  rngUint64 : Int → Nat
  jsonMarshal : TsaRequest → Except Bytes Bytes
  httpPost : Bytes → Bytes → Bytes → Except Bytes TsaResponse

/-- Go `timestampHandler`. -/
def timestampHandler (g : Globals) (env : TimestampEnv) : Outcome :=
  let w := newResponseWriter
  if env.method ≠ str "POST" then
    { globals := g, fatal := none, trace := [],
      w := httpError w (str "[ERROR] Method not allowed, must be POST") 405 }
  else
    match ioReadAll env.body with
    | (_, some err) =>
      { globals := g, fatal := none, trace := [.readRequestBody],
        w := httpError w (str "[ERROR] Error reading request body: " ++ err) 500 }
    | (signatureToTimestamp, none) =>
      let tsaURL := env.tsaURL
      if tsaURL = [] then
        { globals := g, w := w, trace := [.readRequestBody, .getenv (str "TSA_URL")],
          fatal := some (str "[FATAL] TSA_URL environment variable not set") }
      else
        let seed := env.unixNano
        let signatureHashBytes := sha256Sum256 signatureToTimestamp
        let tsaRequestPayload : TsaRequest :=
          { artifactHash := base64EncodeToString signatureHashBytes,
            certificates := true,
            hashAlgorithm := str "sha256",
            nonce := int63 (env.rngUint64 seed) }
        let t0 : List Effect :=
          [.readRequestBody, .getenv (str "TSA_URL"), .timeNow, .jsonMarshal tsaRequestPayload]
        match env.jsonMarshal tsaRequestPayload with
        | .error err =>
          { globals := g, fatal := none, trace := t0,
            w := httpError w (str "[ERROR] Error marshalling TSA request: " ++ err) 500 }
        | .ok tsaRequestBytes =>
          let t1 := t0 ++ [.httpPost tsaURL (str "application/json") tsaRequestBytes]
          match env.httpPost tsaURL (str "application/json") tsaRequestBytes with
          | .error err =>
            { globals := g, fatal := none, trace := t1,
              w := httpError w (str "[ERROR] TSA request failed (network error): " ++ err) 500 }
          | .ok tsaResp =>
            let t2 := t1 ++ [.readResponseBody, .closeResponseBody]
            if tsaResp.statusCode ≠ 200 ∧ tsaResp.statusCode ≠ 201 then
              let body := (ioReadAll tsaResp.body).1
              { globals := g, fatal := none, trace := t2,
                w := httpError w (str "[ERROR] TSA server returned non-OK status: "
                  ++ formatInt tsaResp.statusCode ++ str ", Body: " ++ body) 502 }
            else
              match ioReadAll tsaResp.body with
              | (_, some err) =>
                { globals := g, fatal := none, trace := t2,
                  w := httpError w (str "[ERROR] Error reading TSA response body: " ++ err) 500 }
              | (tsaTimestampBytes, none) =>
                let w1 := headerSet w (str "Content-Type") (str "application/timestamp-reply")
                { globals := g, fatal := none, trace := t2, w := write w1 tsaTimestampBytes }

/-! ## The server: `main` routes each request to one of the two handlers -/

/-- A request, by the route it arrives on: `/generate-payloads` or `/get-timestamp`. -/
inductive Request (SK PK : Type) where
  | generatePayloads (env : GeneratorEnv SK PK)
  | getTimestamp (env : TimestampEnv)

/-- One request served with the package variables `g`. -/
def serve {SK PK : Type} (g : Globals) : Request SK PK → Outcome
  | .generatePayloads env => generatorHandler g env
  | .getTimestamp env => timestampHandler g env

/-- The requests of one process lifetime, served one after the other from the package
variables `g`; a call that ends in `log.Fatalf` terminates the process and nothing after it
is served. -/
def serveAll {SK PK : Type} (g : Globals) : List (Request SK PK) → List Outcome
  | [] => []
  | r :: rest =>
    let o := serve g r
    match o.fatal with
    | some _ => [o]
    | none => o :: serveAll o.globals rest

/-! ## Vocabulary of the specification -/

/-- Whether `s` begins with `p`. -/
def startsWith : Bytes → Bytes → Bool
  | [], _ => true
  | _ :: _, [] => false
  | a :: p, b :: s => a == b && startsWith p s

/-- Whether `sub` occurs in `s` as a contiguous run of octets (Go `strings.Contains`). -/
def containsBytes : Bytes → Bytes → Bool
  | [], sub => sub.isEmpty
  | c :: s, sub => startsWith sub (c :: s) || containsBytes s sub

/-- Whether a call is the outbound network call `http.Post`. -/
def isHttpPost : Effect → Bool
  | .httpPost _ _ _ => true
  | _ => false

/-- The four steps of `generatorHandler` that can fail. -/
inductive Step where
  | keypairGeneration
  | publicKeyMarshalling
  | identitySigning
  | artifactSigning
  deriving DecidableEq

/-- The first of the four steps that fails in a call of `generatorHandler`, if any. -/
def firstFailure {SK PK : Type} (g : Globals) (env : GeneratorEnv SK PK) : Option Step :=
  match env.newSigner with
  | .error _ => some .keypairGeneration
  | .ok privateKey =>
    match env.marshalPKIXPublicKey (env.publicKey privateKey) with
    | .error _ => some .publicKeyMarshalling
    | .ok _ =>
      match signMessage env 0 privateKey (str "jdoe@redhat.com") with
      | .error _ => some .identitySigning
      | .ok _ =>
        match env.signASN1 1 privateKey g.artifactHash with
        | .error _ => some .artifactSigning
        | .ok _ => none

/-- The words with which the error message of `generatorHandler` names each step. -/
def stepMessage : Step → Bytes
  | .keypairGeneration => str "[ERROR] Error creating ECDSA signer"
  | .publicKeyMarshalling => str "[ERROR] Error marshalling public key"
  | .identitySigning => str "[ERROR] Error signing email address"
  | .artifactSigning => str "[ERROR] Error signing artifact hash"

/-- The calls `generatorHandler` has made when the given step has run. -/
def stepsThrough (g : Globals) : Step → List Effect
  | .keypairGeneration => [.newSigner]
  | .publicKeyMarshalling => [.newSigner, .marshalPKIXPublicKey]
  | .identitySigning =>
    [.newSigner, .marshalPKIXPublicKey, .signMessage (str "jdoe@redhat.com")]
  | .artifactSigning =>
    [.newSigner, .marshalPKIXPublicKey, .signMessage (str "jdoe@redhat.com"),
      .signASN1 g.artifactHash]

/-! ## Concrete inputs -/

/-- Package variables with an all-zero cached digest. -/
def sampleGlobals : Globals := { artifactHash := List.replicate 32 0 }

/-- A timestamp request with the given method and TSA URL, body `sig`, and a TSA that
answers every post with the given response. -/
def sampleTimestampEnv (method tsaURL : Bytes) (resp : Except Bytes TsaResponse) :
    TimestampEnv :=
  { method := method
    body := { content := str "sig", failure := none }
    tsaURL := tsaURL
    unixNano := 1700000000000000000
    rngUint64 := fun seed => seed.toNat * 6364136223846793005 + 1442695040888963407
    jsonMarshal := fun _ => .ok (str "{}")
    httpPost := fun _ _ _ => resp }

/-- A toy signature scheme over one-octet keys, correct by construction: the public
key is the private key, a signature is the digest followed by the key octet. -/
def sampleGeneratorEnv (failAt : Option Step) : GeneratorEnv Byte Byte :=
  { newSigner := if failAt = some .keypairGeneration then .error (str "no entropy") else .ok 7
    publicKey := fun sk => sk
    marshalPKIXPublicKey := fun pk =>
      if failAt = some .publicKeyMarshalling then .error (str "bad key")
      else .ok [pk]
    signASN1 := fun k sk digest =>
      if (k = 0 ∧ failAt = some .identitySigning) ∨ (k = 1 ∧ failAt = some .artifactSigning)
      then .error (str "sign failed")
      else .ok (digest ++ [sk])
    jsonEncode := fun c =>
      .ok (c.publicKeyBase64 ++ c.signedEmailAddress ++ c.artifactHash ++ c.artifactSignature) }

/-- Verification for the toy scheme of `sampleGeneratorEnv`. -/
def sampleVerify (pk : Byte) (digest sig : Bytes) : Bool := sig == digest ++ [pk]

/-- Public-key parsing for the toy scheme of `sampleGeneratorEnv`. -/
def sampleParsePKIX (b : Bytes) : Option Byte :=
  match b with
  | [x] => some x
  | _ => none

/-! ## The library models on known values -/

/-- The SHA-256 digest of the empty input (FIPS 180-4 test value). -/
theorem sha256Sum256_empty : hexEncodeToString (sha256Sum256 []) =
    str "e3b0c44298fc1c149afbf4c8996fb92427ae41e4649b934ca495991b7852b855" := by
  decide!

/-- The SHA-256 digest of `abc` (FIPS 180-4 test value). -/
theorem sha256Sum256_abc : hexEncodeToString (sha256Sum256 (str "abc")) =
    str "ba7816bf8f01cfea414140de5dae2223b00361a396177a9cb410ff61f20015ad" := by
  decide!

/-- The SHA-256 digest of the 56-octet two-block test message (FIPS 180-4 test value). -/
theorem sha256Sum256_two_blocks :
    hexEncodeToString
      (sha256Sum256 (str "abcdbcdecdefdefgefghfghighijhijkijkljklmklmnlmnomnopnopq")) =
    str "248d6a61d20638b8e5c026930c3e6039a33ce45964ff2167f6ecedd419db06c1" := by
  decide!

/-- The base64 test values of RFC 4648 section 10. -/
theorem base64EncodeToString_rfc4648 :
    base64EncodeToString (str "") = str "" ∧
    base64EncodeToString (str "f") = str "Zg==" ∧
    base64EncodeToString (str "fo") = str "Zm8=" ∧
    base64EncodeToString (str "foo") = str "Zm9v" ∧
    base64EncodeToString (str "foob") = str "Zm9vYg==" ∧
    base64EncodeToString (str "fooba") = str "Zm9vYmE=" ∧
    base64EncodeToString (str "foobar") = str "Zm9vYmFy" := by
  decide!

/-- The largest 64-bit draw gives the largest nonce, `2^63 - 1`. -/
theorem int63_max : int63 (2 ^ 64 - 1) = 2 ^ 63 - 1 := by
  decide!

/-! ## Arithmetic of the bit operations -/

/-- A bitwise or of two values with disjoint bits is their sum. -/
theorem or_eq_add_of_disjoint (x y i : Nat) (hx : x % 2 ^ i = 0) (hy : y < 2 ^ i) :
    x ||| y = x + y := by
  have hq : x = 2 ^ i * (x / 2 ^ i) := by
    have := Nat.div_add_mod x (2 ^ i)
    omega
  rw [hq, ← Nat.mul_add_lt_is_or hy]

/-- Masking with `0x3F` keeps the value modulo 64. -/
theorem and_63 (x : Nat) : x &&& 0x3F = x % 64 := Nat.and_pow_two_sub_one_eq_mod x 6

/-- Masking with `0x0f` keeps the value modulo 16. -/
theorem and_15 (x : Nat) : x &&& 0x0f = x % 16 := Nat.and_pow_two_sub_one_eq_mod x 4

/-- The three octets of a group as one 24-bit value. -/
theorem pack3_eq (a b c : Nat) (hb : b < 256) (hc : c < 256) :
    (a <<< 16) ||| (b <<< 8) ||| c = a * 65536 + b * 256 + c := by
  simp only [Nat.shiftLeft_eq]
  rw [or_eq_add_of_disjoint (a * 2 ^ 16) (b * 2 ^ 8) 16 (by omega) (by omega)]
  rw [or_eq_add_of_disjoint (a * 2 ^ 16 + b * 2 ^ 8) c 8 (by omega) (by omega)]

/-- Four 6-bit values as one 24-bit value. -/
theorem pack4_eq (x y z t : Nat) (hy : y < 64) (hz : z < 64) (ht : t < 64) :
    (x <<< 18) ||| (y <<< 12) ||| (z <<< 6) ||| t = x * 262144 + y * 4096 + z * 64 + t := by
  simp only [Nat.shiftLeft_eq]
  rw [or_eq_add_of_disjoint (x * 2 ^ 18) (y * 2 ^ 12) 18 (by omega) (by omega)]
  rw [or_eq_add_of_disjoint (x * 2 ^ 18 + y * 2 ^ 12) (z * 2 ^ 6) 12 (by omega) (by omega)]
  rw [or_eq_add_of_disjoint (x * 2 ^ 18 + y * 2 ^ 12 + z * 2 ^ 6) t 6 (by omega) (by omega)]

/-! ## base64: decoding inverts encoding -/

/-- Every alphabet character decodes to its index. -/
theorem decodeSextet_encodeStd : ∀ i : Fin 64, decodeSextet (encodeStd.getD i.val 0) = some i.val := by
  decide

/-- No alphabet character is the padding character. -/
theorem encodeStd_ne_padding : ∀ i : Fin 64, encodeStd.getD i.val 0 ≠ stdPadding := by
  decide

theorem decodeSextet_encodeSextet (v : Nat) : decodeSextet (encodeSextet v) = some (v % 64) := by
  unfold encodeSextet
  rw [and_63]
  exact decodeSextet_encodeStd ⟨v % 64, Nat.mod_lt _ (by decide)⟩

theorem encodeSextet_ne_padding (v : Nat) : encodeSextet v ≠ stdPadding := by
  unfold encodeSextet
  rw [and_63]
  exact encodeStd_ne_padding ⟨v % 64, Nat.mod_lt _ (by decide)⟩

/-- Decoding a full group of four alphabet characters followed by more input. -/
theorem base64Decode_group (p q r s : Byte) (tail : Bytes) (x y z t : Nat)
    (hp : decodeSextet p = some x) (hq : decodeSextet q = some y)
    (hr : decodeSextet r = some z) (hs : decodeSextet s = some t)
    (hs2 : s ≠ stdPadding) :
    base64DecodeString (p :: q :: r :: s :: tail) =
      (base64DecodeString tail).map (fun out =>
        Fin.ofNat (((x <<< 18) ||| (y <<< 12) ||| (z <<< 6) ||| t) >>> 16)
          :: Fin.ofNat (((x <<< 18) ||| (y <<< 12) ||| (z <<< 6) ||| t) >>> 8)
          :: Fin.ofNat ((x <<< 18) ||| (y <<< 12) ||| (z <<< 6) ||| t) :: out) := by
  cases tail with
  | nil => simp [base64DecodeString, hp, hq, hr, hs, hs2]
  | cons u us =>
    simp only [base64DecodeString, hp, hq, hr, hs]
    cases base64DecodeString (u :: us) <;> simp

/-- The round trip: `base64DecodeString` inverts `base64EncodeToString` on every input. -/
theorem base64Decode_encode (data : Bytes) :
    base64DecodeString (base64EncodeToString data) = some data := by
  induction data using base64EncodeToString.induct with
  | case1 => rfl
  | case2 a =>
    have ha := a.isLt
    simp only [base64EncodeToString, base64DecodeString, decodeSextet_encodeSextet, true_and,
      and_self, if_true]
    congr 2
    apply Fin.ext
    show ((((a.val <<< 16) >>> 18) % 64) <<< 18 ||| (((a.val <<< 16) >>> 12) % 64) <<< 12) >>> 16
      % 256 = a.val
    rw [or_eq_add_of_disjoint _ _ 18 (by simp [Nat.shiftLeft_eq]) (by
      simp only [Nat.shiftLeft_eq]; omega)]
    simp only [Nat.shiftLeft_eq, Nat.shiftRight_eq_div_pow]
    omega
  | case3 a b =>
    have ha := a.isLt
    have hb := b.isLt
    have h1 : (a.val <<< 16) ||| (b.val <<< 8) = a.val * 65536 + b.val * 256 := by
      have := pack3_eq a.val b.val 0 hb (by decide)
      simpa using this
    simp only [base64EncodeToString, base64DecodeString, decodeSextet_encodeSextet,
      encodeSextet_ne_padding, false_and, and_self, if_true, if_false, h1]
    congr 2
    · apply Fin.ext
      show _ % 256 = a.val
      rw [or_eq_add_of_disjoint _ _ 12 (by
        rw [or_eq_add_of_disjoint _ _ 18 (by simp [Nat.shiftLeft_eq]) (by
          simp only [Nat.shiftLeft_eq]; omega)]
        simp only [Nat.shiftLeft_eq]; omega) (by simp only [Nat.shiftLeft_eq]; omega)]
      rw [or_eq_add_of_disjoint _ _ 18 (by simp [Nat.shiftLeft_eq]) (by
          simp only [Nat.shiftLeft_eq]; omega)]
      simp only [Nat.shiftLeft_eq, Nat.shiftRight_eq_div_pow]
      omega
    · congr 1
      apply Fin.ext
      show _ % 256 = b.val
      rw [or_eq_add_of_disjoint _ _ 12 (by
        rw [or_eq_add_of_disjoint _ _ 18 (by simp [Nat.shiftLeft_eq]) (by
          simp only [Nat.shiftLeft_eq]; omega)]
        simp only [Nat.shiftLeft_eq]; omega) (by simp only [Nat.shiftLeft_eq]; omega)]
      rw [or_eq_add_of_disjoint _ _ 18 (by simp [Nat.shiftLeft_eq]) (by
          simp only [Nat.shiftLeft_eq]; omega)]
      simp only [Nat.shiftLeft_eq, Nat.shiftRight_eq_div_pow]
      omega
  | case4 a b c rest ih =>
    have ha := a.isLt
    have hb := b.isLt
    have hc := c.isLt
    simp only [base64EncodeToString]
    rw [base64Decode_group _ _ _ _ _ _ _ _ _ (decodeSextet_encodeSextet _)
      (decodeSextet_encodeSextet _) (decodeSextet_encodeSextet _) (decodeSextet_encodeSextet _)
      (encodeSextet_ne_padding _), ih]
    simp only [Option.map_some']
    rw [pack3_eq a.val b.val c.val hb hc,
      pack4_eq _ _ _ _ (Nat.mod_lt _ (by decide)) (Nat.mod_lt _ (by decide))
        (Nat.mod_lt _ (by decide))]
    simp only [Nat.shiftRight_eq_div_pow]
    congr 2
    · apply Fin.ext
      show _ % 256 = a.val
      omega
    · congr 1
      · apply Fin.ext
        show _ % 256 = b.val
        omega
      · congr 1
        apply Fin.ext
        show _ % 256 = c.val
        omega

/-! ## hex: decoding inverts encoding -/

set_option maxRecDepth 100000 in
/-- Both digits of an octet decode, and they rebuild the octet. -/
theorem hex_octet : ∀ v : Byte,
    fromHexChar (hextable.getD (v.val >>> 4) 0) = some (v.val >>> 4) ∧
    fromHexChar (hextable.getD (v.val &&& 0x0f) 0) = some (v.val &&& 0x0f) ∧
    (Fin.ofNat (((v.val >>> 4) <<< 4) ||| (v.val &&& 0x0f)) : Byte) = v := by
  decide!

set_option maxRecDepth 100000 in
/-- Both digits of an octet are taken from `0123456789abcdef`. -/
theorem hex_octet_lowercase : ∀ v : Byte,
    hextable.getD (v.val >>> 4) 0 ∈ hextable ∧ hextable.getD (v.val &&& 0x0f) 0 ∈ hextable := by
  decide!

/-- The round trip: `hexDecodeString` inverts `hexEncodeToString` on every input. -/
theorem hexDecode_encode (data : Bytes) :
    hexDecodeString (hexEncodeToString data) = some data := by
  induction data with
  | nil => rfl
  | cons v rest ih =>
    obtain ⟨h1, h2, h3⟩ := hex_octet v
    simp only [hexEncodeToString, hexDecodeString, h1, h2, ih, h3]

/-- The encoding has two characters per octet. -/
theorem hexEncode_length (data : Bytes) :
    (hexEncodeToString data).length = 2 * data.length := by
  induction data with
  | nil => rfl
  | cons v rest ih => simp only [hexEncodeToString, List.length_cons, ih]; omega

/-- The encoding uses only the characters `0123456789abcdef`. -/
theorem hexEncode_lowercase (data : Bytes) : ∀ c ∈ hexEncodeToString data, c ∈ hextable := by
  induction data with
  | nil => intro c hc; cases hc
  | cons v rest ih =>
    intro c hc
    obtain ⟨h1, h2⟩ := hex_octet_lowercase v
    simp only [hexEncodeToString, List.mem_cons] at hc
    rcases hc with hc | hc | hc
    · rw [hc]; exact h1
    · rw [hc]; exact h2
    · exact ih c hc

/-! ## SHA-256: the digest has 32 octets -/

theorem sha256Sum256_length (data : Bytes) : (sha256Sum256 data).length = 32 := by
  simp [sha256Sum256, putUint32]

/-! ## `Int63` -/

/-- The masked draw is below `2^63`. -/
theorem and_rngMask_lt (u : Nat) : (u % 2 ^ 64) &&& rngMask < 2 ^ 63 := by
  have h : (u % 2 ^ 64) &&& rngMask ≤ rngMask := Nat.and_le_right
  have h2 : rngMask = 2 ^ 63 - 1 := by decide
  omega

theorem int63_eq (u : Nat) : int63 u = (((u % 2 ^ 64) &&& rngMask : Nat) : Int) := by
  have h := and_rngMask_lt u
  unfold int63 toInt64
  have h3 : ((u % 2 ^ 64) &&& rngMask) % 2 ^ 64 = (u % 2 ^ 64) &&& rngMask :=
    Nat.mod_eq_of_lt (by omega)
  rw [h3, if_pos h]

theorem int63_bounds (u : Nat) : 0 ≤ int63 u ∧ int63 u < 2 ^ 63 := by
  rw [int63_eq]
  have h := and_rngMask_lt u
  constructor
  · exact Int.ofNat_nonneg _
  · exact_mod_cast h

/-! ## Occurrence of one octet string in another -/

theorem startsWith_iff (p s : Bytes) : startsWith p s = true ↔ ∃ post, s = p ++ post := by
  induction p generalizing s with
  | nil => simp [startsWith]
  | cons a p ih =>
    cases s with
    | nil => simp [startsWith]
    | cons b s =>
      simp only [startsWith, Bool.and_eq_true, beq_iff_eq, ih, List.cons_append, List.cons.injEq]
      constructor
      · rintro ⟨rfl, post, rfl⟩
        exact ⟨post, rfl, rfl⟩
      · rintro ⟨post, rfl, rfl⟩
        exact ⟨rfl, post, rfl⟩

theorem containsBytes_iff (s sub : Bytes) :
    containsBytes s sub = true ↔ ∃ pre post, s = pre ++ sub ++ post := by
  induction s with
  | nil =>
    simp only [containsBytes, List.isEmpty_iff]
    constructor
    · rintro rfl
      exact ⟨[], [], rfl⟩
    · rintro ⟨pre, post, h⟩
      have h2 := congrArg List.length h
      simp only [List.length_nil, List.length_append] at h2
      exact List.eq_nil_of_length_eq_zero (by omega)
  | cons c s ih =>
    simp only [containsBytes, Bool.or_eq_true, startsWith_iff, ih]
    constructor
    · rintro (⟨post, h⟩ | ⟨pre, post, h⟩)
      · exact ⟨[], post, by simpa using h⟩
      · exact ⟨c :: pre, post, by simp [h]⟩
    · rintro ⟨pre, post, h⟩
      cases pre with
      | nil => exact Or.inl ⟨post, by simpa using h⟩
      | cons d pre =>
        simp only [List.cons_append, List.cons.injEq] at h
        exact Or.inr ⟨pre, post, h.2⟩

/-! ## `http.Error` on a fresh response writer -/

theorem httpError_status (msg : Bytes) (code : Nat) :
    (httpError newResponseWriter msg code).status = some code := rfl

theorem httpError_body (msg : Bytes) (code : Nat) :
    (httpError newResponseWriter msg code).body = msg ++ str "\n" := rfl

theorem httpError_writes (msg : Bytes) (code : Nat) :
    (httpError newResponseWriter msg code).writes = 1 := rfl

theorem httpError_contentType (msg : Bytes) (code : Nat) :
    headerGet (httpError newResponseWriter msg code) (str "Content-Type")
      = some (str "text/plain; charset=utf-8") := by
  have h : (httpError newResponseWriter msg code).header =
      [(str "X-Content-Type-Options", str "nosniff"),
       (str "Content-Type", str "text/plain; charset=utf-8")] := rfl
  unfold headerGet
  rw [h]
  decide

/-! ## `timestampHandler`, path by path -/

/-- The path of a request whose method is not POST. -/
theorem timestampHandler_of_not_post (g : Globals) (env : TimestampEnv)
    (hm : env.method ≠ str "POST") :
    timestampHandler g env =
      { globals := g, fatal := none, trace := [],
        w := httpError newResponseWriter (str "[ERROR] Method not allowed, must be POST") 405 } := by
  unfold timestampHandler
  rw [if_pos hm]

/-- The path of a POST whose body cannot be read. -/
theorem timestampHandler_of_unreadable (g : Globals) (env : TimestampEnv)
    (hm : env.method = str "POST") (k : Nat) (err : Bytes)
    (hb : env.body.failure = some (k, err)) :
    timestampHandler g env =
      { globals := g, fatal := none, trace := [.readRequestBody],
        w := httpError newResponseWriter
          (str "[ERROR] Error reading request body: " ++ err) 500 } := by
  unfold timestampHandler
  simp [hm, ioReadAll, hb]

/-- The path of a readable POST while the TSA URL is empty. -/
theorem timestampHandler_of_no_url (g : Globals) (env : TimestampEnv)
    (hm : env.method = str "POST") (hb : env.body.failure = none) (hu : env.tsaURL = []) :
    timestampHandler g env =
      { globals := g, w := newResponseWriter,
        trace := [.readRequestBody, .getenv (str "TSA_URL")],
        fatal := some (str "[FATAL] TSA_URL environment variable not set") } := by
  unfold timestampHandler
  simp [hm, ioReadAll, hb, hu]

/-- What the handler posts, it posts to the configured URL as JSON, after a POST whose body
was read and with the TSA URL set. -/
theorem timestampHandler_post_in_trace (g : Globals) (env : TimestampEnv)
    (url ct payload : Bytes)
    (h1 : Effect.httpPost url ct payload ∈ (timestampHandler g env).trace) :
    env.method = str "POST" ∧ env.body.failure = none ∧ env.tsaURL ≠ [] ∧
    url = env.tsaURL ∧ ct = str "application/json" ∧
    (timestampHandler g env).trace.take 5 =
      [.readRequestBody, .getenv (str "TSA_URL"), .timeNow,
       .jsonMarshal
         { artifactHash := base64EncodeToString (sha256Sum256 env.body.content),
           certificates := true, hashAlgorithm := str "sha256",
           nonce := int63 (env.rngUint64 env.unixNano) },
       .httpPost url ct payload] ∧
    env.jsonMarshal
      { artifactHash := base64EncodeToString (sha256Sum256 env.body.content),
        certificates := true, hashAlgorithm := str "sha256",
        nonce := int63 (env.rngUint64 env.unixNano) } = .ok payload := by
  by_cases hm : env.method = str "POST"
  · cases hb : env.body.failure with
    | some ke =>
      rw [timestampHandler_of_unreadable g env hm ke.1 ke.2 hb] at h1
      simp at h1
    | none =>
      by_cases hu : env.tsaURL = []
      · rw [timestampHandler_of_no_url g env hm hb hu] at h1
        simp at h1
      · revert h1
        unfold timestampHandler
        simp only [hm, ioReadAll, hb, ne_eq, not_true_eq_false, if_false, hu]
        split
        · intro h1
          simp at h1
        · split
          · intro h1
            simp only [List.mem_append, List.mem_cons, List.mem_singleton, reduceCtorEq,
              Effect.httpPost.injEq, List.not_mem_nil, or_false, false_or] at h1
            obtain ⟨rfl, rfl, rfl⟩ := h1
            simp_all
          · split
            · intro h1
              simp only [List.mem_append, List.mem_cons, List.mem_singleton, reduceCtorEq,
                Effect.httpPost.injEq, List.not_mem_nil, or_false, false_or] at h1
              obtain ⟨rfl, rfl, rfl⟩ := h1
              simp_all
            · split
              all_goals
                intro h1
                simp only [List.mem_append, List.mem_cons, List.mem_singleton, reduceCtorEq,
                  Effect.httpPost.injEq, List.not_mem_nil, or_false, false_or] at h1
                obtain ⟨rfl, rfl, rfl⟩ := h1
                simp_all
  · rw [timestampHandler_of_not_post g env hm] at h1
    simp at h1

/-- The outcome once the request was posted and the TSA answered. -/
theorem timestampHandler_post_answered (g : Globals) (env : TimestampEnv)
    (url ct payload : Bytes) (resp : TsaResponse)
    (h1 : Effect.httpPost url ct payload ∈ (timestampHandler g env).trace)
    (h2 : env.httpPost url ct payload = .ok resp) :
    (timestampHandler g env).w =
      (if resp.statusCode ≠ 200 ∧ resp.statusCode ≠ 201 then
        httpError newResponseWriter (str "[ERROR] TSA server returned non-OK status: "
          ++ formatInt resp.statusCode ++ str ", Body: " ++ (ioReadAll resp.body).1) 502
      else
        match ioReadAll resp.body with
        | (_, some err) =>
          httpError newResponseWriter (str "[ERROR] Error reading TSA response body: " ++ err) 500
        | (tsaTimestampBytes, none) =>
          write (headerSet newResponseWriter (str "Content-Type")
            (str "application/timestamp-reply")) tsaTimestampBytes) ∧
    (timestampHandler g env).fatal = none ∧
    (timestampHandler g env).trace.drop 5 = [.readResponseBody, .closeResponseBody] := by
  obtain ⟨hm, hb, hu, rfl, rfl, -, hj⟩ := timestampHandler_post_in_trace g env url ct payload h1
  unfold timestampHandler
  simp only [hm, ioReadAll, hb, ne_eq, not_true_eq_false, if_false, hu, hj, h2]
  split
  · exact ⟨rfl, rfl, rfl⟩
  · split <;> exact ⟨rfl, rfl, rfl⟩

/-- The outcome once the request was posted and the post failed. -/
theorem timestampHandler_post_failed (g : Globals) (env : TimestampEnv)
    (url ct payload err : Bytes)
    (h1 : Effect.httpPost url ct payload ∈ (timestampHandler g env).trace)
    (h2 : env.httpPost url ct payload = .error err) :
    (timestampHandler g env).w =
      httpError newResponseWriter
        (str "[ERROR] TSA request failed (network error): " ++ err) 500 ∧
    (timestampHandler g env).fatal = none ∧
    (timestampHandler g env).trace.drop 5 = [] := by
  obtain ⟨hm, hb, hu, rfl, rfl, -, hj⟩ := timestampHandler_post_in_trace g env url ct payload h1
  unfold timestampHandler
  simp only [hm, ioReadAll, hb, ne_eq, not_true_eq_false, if_false, hu, hj, h2]
  refine ⟨?_, ?_, ?_⟩ <;> first | rfl | trivial

/-- The only request the handler hands to `json.Marshal` is the one built from the body
and the seeded draw, after a POST whose body was read and with the TSA URL set. -/
theorem timestampHandler_marshal_in_trace (g : Globals) (env : TimestampEnv) (r : TsaRequest)
    (h1 : Effect.jsonMarshal r ∈ (timestampHandler g env).trace) :
    env.method = str "POST" ∧ env.body.failure = none ∧ env.tsaURL ≠ [] ∧
    r = { artifactHash := base64EncodeToString (sha256Sum256 env.body.content),
          certificates := true, hashAlgorithm := str "sha256",
          nonce := int63 (env.rngUint64 env.unixNano) } := by
  by_cases hm : env.method = str "POST"
  · cases hb : env.body.failure with
    | some ke =>
      rw [timestampHandler_of_unreadable g env hm ke.1 ke.2 hb] at h1
      simp at h1
    | none =>
      by_cases hu : env.tsaURL = []
      · rw [timestampHandler_of_no_url g env hm hb hu] at h1
        simp at h1
      · refine ⟨hm, rfl, hu, ?_⟩
        revert h1
        unfold timestampHandler
        simp only [hm, ioReadAll, hb, ne_eq, not_true_eq_false, if_false, hu]
        split <;> [skip; split <;> [skip; split <;> [skip; split]]]
        all_goals
          intro h1
          simp only [List.mem_append, List.mem_cons, List.mem_singleton, reduceCtorEq,
            Effect.jsonMarshal.injEq, List.not_mem_nil, or_false, false_or] at h1
          exact h1
  · rw [timestampHandler_of_not_post g env hm] at h1
    simp at h1

/-- Every path of the handler, by what it leaves in the response writer: the fatal exit
writes nothing and posts nothing; every other path writes either one `http.Error` reply or
the relayed TSA body, and posts at most once. -/
theorem timestampHandler_summary (g : Globals) (env : TimestampEnv) :
    ((timestampHandler g env).fatal ≠ none ∧
      (timestampHandler g env).w = newResponseWriter ∧
      (timestampHandler g env).trace.countP isHttpPost = 0) ∨
    ((timestampHandler g env).fatal = none ∧
      (∃ msg code, (timestampHandler g env).w = httpError newResponseWriter msg code) ∧
      (timestampHandler g env).trace.countP isHttpPost ≤ 1) ∨
    ((timestampHandler g env).fatal = none ∧
      (∃ data, (timestampHandler g env).w =
        write (headerSet newResponseWriter (str "Content-Type")
          (str "application/timestamp-reply")) data) ∧
      (timestampHandler g env).trace.countP isHttpPost = 1) := by
  by_cases hm : env.method = str "POST"
  · cases hb : env.body.failure with
    | some ke =>
      rw [timestampHandler_of_unreadable g env hm ke.1 ke.2 hb]
      exact Or.inr (Or.inl ⟨rfl, ⟨_, _, rfl⟩, by simp [isHttpPost]⟩)
    | none =>
      by_cases hu : env.tsaURL = []
      · rw [timestampHandler_of_no_url g env hm hb hu]
        exact Or.inl ⟨by simp, rfl, by simp [isHttpPost]⟩
      · unfold timestampHandler
        simp only [hm, ioReadAll, hb, ne_eq, not_true_eq_false, if_false, hu]
        split
        · exact Or.inr (Or.inl ⟨rfl, ⟨_, _, rfl⟩, by simp [isHttpPost]⟩)
        · split
          · exact Or.inr (Or.inl ⟨rfl, ⟨_, _, rfl⟩, by simp [isHttpPost]⟩)
          · split
            · exact Or.inr (Or.inl ⟨rfl, ⟨_, _, rfl⟩, by simp [isHttpPost]⟩)
            · split
              · exact Or.inr (Or.inl ⟨rfl, ⟨_, _, rfl⟩, by simp [isHttpPost]⟩)
              · exact Or.inr (Or.inr ⟨rfl, ⟨_, rfl⟩, by simp [isHttpPost]⟩)
  · rw [timestampHandler_of_not_post g env hm]
    exact Or.inr (Or.inl ⟨rfl, ⟨_, _, rfl⟩, by simp [isHttpPost]⟩)

/-! ## `timestampHandler`: the request that is built -/

/-- Claim C1. When `timestampHandler` gets a POST whose body `b` is read without error and
the TSA URL is set, it builds exactly one `TsaRequest`; its `artifactHash` is the standard
base64 encoding of the 32-octet SHA-256 digest of `b`, `certificates` is true,
`hashAlgorithm` is `"sha256"`, decoding `artifactHash` gives the digest back, and whatever
is posted to the TSA is the JSON of that request. -/
theorem timestampHandler_builds_request (g : Globals) (env : TimestampEnv)
    (hm : env.method = str "POST") (hb : env.body.failure = none) (hu : env.tsaURL ≠ []) :
    ∃ req : TsaRequest,
      Effect.jsonMarshal req ∈ (timestampHandler g env).trace ∧
      (∀ r, Effect.jsonMarshal r ∈ (timestampHandler g env).trace → r = req) ∧
      (∀ url ct payload, Effect.httpPost url ct payload ∈ (timestampHandler g env).trace →
        env.jsonMarshal req = .ok payload ∧ url = env.tsaURL ∧ ct = str "application/json") ∧
      req.artifactHash = base64EncodeToString (sha256Sum256 env.body.content) ∧
      (sha256Sum256 env.body.content).length = 32 ∧
      req.certificates = true ∧
      req.hashAlgorithm = str "sha256" ∧
      base64DecodeString req.artifactHash = some (sha256Sum256 env.body.content) := by
  refine ⟨{ artifactHash := base64EncodeToString (sha256Sum256 env.body.content),
            certificates := true, hashAlgorithm := str "sha256",
            nonce := int63 (env.rngUint64 env.unixNano) }, ?_, ?_, ?_, rfl,
    sha256Sum256_length _, rfl, rfl, base64Decode_encode _⟩
  all_goals
    simp only [timestampHandler, hm, ioReadAll, hb, ne_eq, not_true_eq_false, if_false, hu]
    split <;> [skip; split <;> [skip; split <;> [skip; split]]]
  all_goals simp_all

/-- Claim C1, at a concrete request: a POST with body `sig` to a configured TSA. -/
theorem timestampHandler_builds_request_witness :
    ∃ req : TsaRequest,
      Effect.jsonMarshal req ∈ (timestampHandler sampleGlobals
        (sampleTimestampEnv (str "POST") (str "http://tsa") (.error []))).trace ∧
      req.artifactHash = base64EncodeToString (sha256Sum256 (str "sig")) ∧
      base64DecodeString req.artifactHash = some (sha256Sum256 (str "sig")) := by
  obtain ⟨req, h1, _, _, h2, _, _, _, h3⟩ := timestampHandler_builds_request sampleGlobals
    (sampleTimestampEnv (str "POST") (str "http://tsa") (.error [])) rfl rfl (by decide)
  exact ⟨req, h1, h2, h3⟩

/-! ## `timestampHandler`: the method guard -/

/-- Claim C2. A request whose method is not POST gets status 405 with a plain-text error
body, and the handler makes no call at all before it returns: it does not read the body,
does not read the TSA URL, builds no request and posts nothing. -/
theorem timestampHandler_method_not_allowed (g : Globals) (env : TimestampEnv)
    (hm : env.method ≠ str "POST") :
    (timestampHandler g env).w.status = some 405 ∧
    headerGet (timestampHandler g env).w (str "Content-Type")
      = some (str "text/plain; charset=utf-8") ∧
    (timestampHandler g env).w.body = str "[ERROR] Method not allowed, must be POST\n" ∧
    (timestampHandler g env).trace = [] ∧
    (timestampHandler g env).fatal = none := by
  rw [timestampHandler_of_not_post g env hm]
  exact ⟨httpError_status _ _, httpError_contentType _ _, httpError_body _ _, rfl, rfl⟩

/-- Claim C2, at a concrete request: a GET. -/
theorem timestampHandler_method_not_allowed_witness :
    (timestampHandler sampleGlobals
      (sampleTimestampEnv (str "GET") (str "http://tsa") (.error []))).w.status = some 405 ∧
    (timestampHandler sampleGlobals
      (sampleTimestampEnv (str "GET") (str "http://tsa") (.error []))).trace = [] :=
  have h := timestampHandler_method_not_allowed sampleGlobals
    (sampleTimestampEnv (str "GET") (str "http://tsa") (.error [])) (by decide)
  ⟨h.1, h.2.2.2.1⟩

/-! ## `timestampHandler`: relaying the TSA response -/

/-- Claim C3. When the handler has posted a request and the TSA answered it with status 200
or 201 and a body `X` that is read without error, the caller gets status 200, content type
`application/timestamp-reply` and exactly the octets of `X`. -/
theorem timestampHandler_relays_token (g : Globals) (env : TimestampEnv)
    (url ct payload : Bytes) (resp : TsaResponse)
    (h1 : Effect.httpPost url ct payload ∈ (timestampHandler g env).trace)
    (h2 : env.httpPost url ct payload = .ok resp)
    (hs : resp.statusCode = 200 ∨ resp.statusCode = 201)
    (hr : resp.body.failure = none) :
    (timestampHandler g env).w.status = some 200 ∧
    headerGet (timestampHandler g env).w (str "Content-Type")
      = some (str "application/timestamp-reply") ∧
    (timestampHandler g env).w.body = resp.body.content ∧
    (timestampHandler g env).w.writes = 1 ∧
    (timestampHandler g env).fatal = none := by
  obtain ⟨hw, hf, -⟩ := timestampHandler_post_answered g env url ct payload resp h1 h2
  have hc : ¬ (resp.statusCode ≠ 200 ∧ resp.statusCode ≠ 201) := by omega
  rw [hw, hf, if_neg hc]
  simp only [ioReadAll, hr]
  refine ⟨?_, ?_, ?_, ?_, ?_⟩ <;> first | rfl | trivial

/-- Claim C3, at a concrete request: the TSA answers 201 with body `X`. -/
theorem timestampHandler_relays_token_witness :
    (timestampHandler sampleGlobals (sampleTimestampEnv (str "POST") (str "http://tsa")
      (.ok { statusCode := 201, body := { content := str "X", failure := none } }))).w.status
      = some 200 ∧
    (timestampHandler sampleGlobals (sampleTimestampEnv (str "POST") (str "http://tsa")
      (.ok { statusCode := 201, body := { content := str "X", failure := none } }))).w.body
      = str "X" :=
  have h := timestampHandler_relays_token sampleGlobals
    (sampleTimestampEnv (str "POST") (str "http://tsa")
      (.ok { statusCode := 201, body := { content := str "X", failure := none } }))
    (str "http://tsa") (str "application/json") (str "{}")
    { statusCode := 201, body := { content := str "X", failure := none } }
    (by decide!) rfl (Or.inr rfl) rfl
  ⟨h.1, h.2.2.1⟩


/-! ## `timestampHandler`: a TSA status other than 200 and 201 -/

/-- Claim C4 as stated fails: the TSA answers 500 with body `bad`, but reading that body
fails before its first octet; the handler answers 502 and its message does not contain
`bad`. -/
theorem timestampHandler_bad_gateway_counterexample :
    Effect.httpPost (str "http://tsa") (str "application/json") (str "{}") ∈
      (timestampHandler sampleGlobals (sampleTimestampEnv (str "POST") (str "http://tsa")
        (.ok { statusCode := 500,
               body := { content := str "bad",
                         failure := some (0, str "unexpected EOF") } }))).trace ∧
    (timestampHandler sampleGlobals (sampleTimestampEnv (str "POST") (str "http://tsa")
      (.ok { statusCode := 500,
             body := { content := str "bad",
                       failure := some (0, str "unexpected EOF") } }))).w.status = some 502 ∧
    ¬ ∃ pre post, (timestampHandler sampleGlobals
      (sampleTimestampEnv (str "POST") (str "http://tsa")
        (.ok { statusCode := 500,
               body := { content := str "bad",
                         failure := some (0, str "unexpected EOF") } }))).w.body
        = pre ++ str "bad" ++ post := by
  refine ⟨by decide!, by decide!, ?_⟩
  rw [← containsBytes_iff]
  decide!

/-- Claim C4, amended. When the handler has posted a request and the TSA answered it, the
caller gets status 502 exactly when the TSA status is neither 200 nor 201; the message then
contains the octets that were read from the TSA body, which is the whole body when it is
read without error. -/
theorem timestampHandler_bad_gateway (g : Globals) (env : TimestampEnv)
    (url ct payload : Bytes) (resp : TsaResponse)
    (h1 : Effect.httpPost url ct payload ∈ (timestampHandler g env).trace)
    (h2 : env.httpPost url ct payload = .ok resp) :
    ((timestampHandler g env).w.status = some 502 ↔
      (resp.statusCode ≠ 200 ∧ resp.statusCode ≠ 201)) ∧
    ((timestampHandler g env).w.status = some 502 →
      (∃ pre post, (timestampHandler g env).w.body
        = pre ++ (ioReadAll resp.body).1 ++ post) ∧
      (resp.body.failure = none →
        ∃ pre post, (timestampHandler g env).w.body = pre ++ resp.body.content ++ post)) := by
  obtain ⟨hw, -, -⟩ := timestampHandler_post_answered g env url ct payload resp h1 h2
  rw [hw]
  by_cases hc : resp.statusCode ≠ 200 ∧ resp.statusCode ≠ 201
  · rw [if_pos hc]
    refine ⟨⟨fun _ => hc, fun _ => httpError_status _ _⟩, fun _ => ⟨?_, fun hr => ?_⟩⟩
    · rw [httpError_body]
      exact ⟨str "[ERROR] TSA server returned non-OK status: " ++ formatInt resp.statusCode
        ++ str ", Body: ", str "\n", rfl⟩
    · rw [httpError_body]
      refine ⟨str "[ERROR] TSA server returned non-OK status: " ++ formatInt resp.statusCode
        ++ str ", Body: ", str "\n", ?_⟩
      simp only [ioReadAll, hr]
  · rw [if_neg hc]
    have hne : (match ioReadAll resp.body with
        | (_, some err) =>
          httpError newResponseWriter (str "[ERROR] Error reading TSA response body: " ++ err) 500
        | (tsaTimestampBytes, none) =>
          write (headerSet newResponseWriter (str "Content-Type")
            (str "application/timestamp-reply")) tsaTimestampBytes).status ≠ some 502 := by
      unfold ioReadAll
      cases resp.body.failure with
      | none =>
        intro h
        have h3 : some 200 = some 502 := h
        simp at h3
      | some ke =>
        intro h
        have h3 : some 500 = some 502 := h
        simp at h3
    exact ⟨⟨fun h => absurd h hne, fun h => absurd h hc⟩, fun h => absurd h hne⟩

/-- Claim C4 amended, at a concrete request: the TSA answers 500 with body `bad`. -/
theorem timestampHandler_bad_gateway_witness :
    (timestampHandler sampleGlobals (sampleTimestampEnv (str "POST") (str "http://tsa")
      (.ok { statusCode := 500, body := { content := str "bad", failure := none } }))).w.status
      = some 502 ∧
    ∃ pre post, (timestampHandler sampleGlobals
      (sampleTimestampEnv (str "POST") (str "http://tsa")
        (.ok { statusCode := 500, body := { content := str "bad", failure := none } }))).w.body
        = pre ++ str "bad" ++ post :=
  have h := timestampHandler_bad_gateway sampleGlobals
    (sampleTimestampEnv (str "POST") (str "http://tsa")
      (.ok { statusCode := 500, body := { content := str "bad", failure := none } }))
    (str "http://tsa") (str "application/json") (str "{}")
    { statusCode := 500, body := { content := str "bad", failure := none } }
    (by decide!) rfl
  have hs := h.1.2 ⟨by decide, by decide⟩
  ⟨hs, (h.2 hs).2 rfl⟩

/-! ## `timestampHandler`: the TSA URL is not set -/

/-- Claim C5 as stated fails: with the TSA URL empty, a GET gets the per-request answer 405
and a POST whose body cannot be read gets the per-request answer 500; neither call ends in
`log.Fatalf`. -/
theorem timestampHandler_no_url_counterexample :
    (sampleTimestampEnv (str "GET") [] (.error [])).tsaURL = [] ∧
    (timestampHandler sampleGlobals (sampleTimestampEnv (str "GET") [] (.error []))).fatal
      = none ∧
    (timestampHandler sampleGlobals (sampleTimestampEnv (str "GET") [] (.error []))).w.status
      = some 405 ∧
    (timestampHandler sampleGlobals
      { sampleTimestampEnv (str "POST") [] (.error []) with
        body := { content := str "sig", failure := some (1, str "unexpected EOF") } }).fatal
      = none ∧
    (timestampHandler sampleGlobals
      { sampleTimestampEnv (str "POST") [] (.error []) with
        body := { content := str "sig", failure := some (1, str "unexpected EOF") } }).w.status
      = some 500 := by
  refine ⟨rfl, ?_, ?_, ?_, ?_⟩ <;> decide!

/-- Claim C5, amended. A POST whose body is read without error, handled while the TSA URL is
empty, ends in `log.Fatalf`: no status, no header and no body is written for it, and nothing
is posted. -/
theorem timestampHandler_no_url_fatal (g : Globals) (env : TimestampEnv)
    (hm : env.method = str "POST") (hb : env.body.failure = none) (hu : env.tsaURL = []) :
    (timestampHandler g env).fatal = some (str "[FATAL] TSA_URL environment variable not set") ∧
    (timestampHandler g env).w = newResponseWriter ∧
    (timestampHandler g env).w.status = none ∧
    (timestampHandler g env).w.body = [] ∧
    (timestampHandler g env).w.writes = 0 ∧
    (timestampHandler g env).trace.countP isHttpPost = 0 := by
  rw [timestampHandler_of_no_url g env hm hb hu]
  exact ⟨rfl, rfl, rfl, rfl, rfl, rfl⟩

/-- Claim C5 amended, at a concrete request: a POST with body `sig` and no TSA URL. -/
theorem timestampHandler_no_url_fatal_witness :
    (timestampHandler sampleGlobals (sampleTimestampEnv (str "POST") [] (.error []))).fatal
      = some (str "[FATAL] TSA_URL environment variable not set") ∧
    (timestampHandler sampleGlobals (sampleTimestampEnv (str "POST") [] (.error []))).w
      = newResponseWriter :=
  have h := timestampHandler_no_url_fatal sampleGlobals
    (sampleTimestampEnv (str "POST") [] (.error [])) rfl rfl rfl
  ⟨h.1, h.2.1⟩

/-! ## `timestampHandler`: the nonce -/

/-- Claim C9. Whatever the time-derived seed and whatever the seeded source draws, the nonce
of the request the handler builds is the draw masked to 63 bits: it is at least 0, below
`2^63`, and so unchanged by the conversion to a signed 64-bit integer. -/
theorem timestampHandler_nonce_range (g : Globals) (env : TimestampEnv) (req : TsaRequest)
    (h : Effect.jsonMarshal req ∈ (timestampHandler g env).trace) :
    req.nonce = int63 (env.rngUint64 env.unixNano) ∧
    0 ≤ req.nonce ∧ req.nonce < 2 ^ 63 ∧
    toInt64 req.nonce.toNat = req.nonce := by
  obtain ⟨-, -, -, rfl⟩ := timestampHandler_marshal_in_trace g env req h
  obtain ⟨h0, h1⟩ := int63_bounds (env.rngUint64 env.unixNano)
  refine ⟨rfl, h0, h1, ?_⟩
  show toInt64 (int63 (env.rngUint64 env.unixNano)).toNat = int63 (env.rngUint64 env.unixNano)
  unfold toInt64
  have h2 : (int63 (env.rngUint64 env.unixNano)).toNat % 2 ^ 64 < 2 ^ 63 := by omega
  rw [if_pos h2]
  omega

/-- Claim C9, at a concrete request. -/
theorem timestampHandler_nonce_range_witness :
    ∃ req : TsaRequest,
      Effect.jsonMarshal req ∈ (timestampHandler sampleGlobals
        (sampleTimestampEnv (str "POST") (str "http://tsa") (.error []))).trace ∧
      0 ≤ req.nonce ∧ req.nonce < 2 ^ 63 :=
  have hmem : Effect.jsonMarshal
      { artifactHash := base64EncodeToString (sha256Sum256 (str "sig")),
        certificates := true, hashAlgorithm := str "sha256",
        nonce := int63 (1700000000000000000 * 6364136223846793005 + 1442695040888963407) } ∈
      (timestampHandler sampleGlobals
        (sampleTimestampEnv (str "POST") (str "http://tsa") (.error []))).trace := by
    decide!
  have h := timestampHandler_nonce_range sampleGlobals
    (sampleTimestampEnv (str "POST") (str "http://tsa") (.error [])) _ hmem
  ⟨_, hmem, h.2.1, h.2.2.1⟩

/-! ## `timestampHandler`: one attempt, one response -/

/-- Claim C10 as stated fails: a POST handled while the TSA URL is empty ends in
`log.Fatalf`, and on that path no response is written to the caller at all. -/
theorem timestampHandler_single_attempt_counterexample :
    (timestampHandler sampleGlobals (sampleTimestampEnv (str "POST") [] (.error []))).fatal
      ≠ none ∧
    (timestampHandler sampleGlobals (sampleTimestampEnv (str "POST") [] (.error []))).w.status
      = none ∧
    (timestampHandler sampleGlobals (sampleTimestampEnv (str "POST") [] (.error []))).w.writes
      = 0 := by
  refine ⟨?_, ?_, ?_⟩ <;> decide!

/-- Claim C10, amended. On every path the handler posts at most once. On every path that
returns, exactly one response is written: one status line and one body write. On the path
that ends in `log.Fatalf` nothing is written and nothing is posted. When the single post
fails with a network error the caller gets status 500 and there is no second post. -/
theorem timestampHandler_single_attempt (g : Globals) (env : TimestampEnv) :
    (timestampHandler g env).trace.countP isHttpPost ≤ 1 ∧
    ((timestampHandler g env).fatal = none →
      (timestampHandler g env).w.status ≠ none ∧ (timestampHandler g env).w.writes = 1) ∧
    ((timestampHandler g env).fatal ≠ none →
      (timestampHandler g env).w = newResponseWriter ∧
      (timestampHandler g env).trace.countP isHttpPost = 0) ∧
    (∀ url ct payload err,
      Effect.httpPost url ct payload ∈ (timestampHandler g env).trace →
      env.httpPost url ct payload = .error err →
        (timestampHandler g env).w.status = some 500 ∧
        (timestampHandler g env).w.writes = 1 ∧
        (timestampHandler g env).trace.countP isHttpPost = 1) := by
  refine ⟨?_, ?_, ?_, ?_⟩
  · rcases timestampHandler_summary g env with h | h | h
    · omega
    · omega
    · omega
  · intro hf
    rcases timestampHandler_summary g env with h | h | h
    · exact absurd hf h.1
    · obtain ⟨-, ⟨msg, code, hw⟩, -⟩ := h
      rw [hw, httpError_status, httpError_writes]
      exact ⟨by simp, rfl⟩
    · obtain ⟨-, ⟨data, hw⟩, -⟩ := h
      rw [hw]
      exact ⟨fun h3 => by have h4 : some 200 = none := h3; simp at h4, rfl⟩
  · intro hf
    rcases timestampHandler_summary g env with h | h | h
    · exact ⟨h.2.1, h.2.2⟩
    · exact absurd h.1 hf
    · exact absurd h.1 hf
  · intro url ct payload err h1 h2
    obtain ⟨hw, -, hd⟩ := timestampHandler_post_failed g env url ct payload err h1 h2
    obtain ⟨-, -, -, -, -, ht, -⟩ := timestampHandler_post_in_trace g env url ct payload h1
    refine ⟨by rw [hw]; rfl, by rw [hw]; rfl, ?_⟩
    rw [← List.take_append_drop 5 (timestampHandler g env).trace, ht, hd]
    simp [isHttpPost]

/-- Claim C10 amended, at a concrete request: the post fails with a network error. -/
theorem timestampHandler_single_attempt_witness :
    (timestampHandler sampleGlobals (sampleTimestampEnv (str "POST") (str "http://tsa")
      (.error (str "connection refused")))).w.status = some 500 ∧
    (timestampHandler sampleGlobals (sampleTimestampEnv (str "POST") (str "http://tsa")
      (.error (str "connection refused")))).trace.countP isHttpPost = 1 :=
  have h := (timestampHandler_single_attempt sampleGlobals
    (sampleTimestampEnv (str "POST") (str "http://tsa")
      (.error (str "connection refused")))).2.2.2
    (str "http://tsa") (str "application/json") (str "{}") (str "connection refused")
    (by decide!) rfl
  ⟨h.1, h.2.2⟩

/-! ## `generatorHandler`, path by path -/

/-- The package variables are left as they were by `timestampHandler`. -/
theorem timestampHandler_globals (g : Globals) (env : TimestampEnv) :
    (timestampHandler g env).globals = g := by
  by_cases hm : env.method = str "POST"
  · cases hb : env.body.failure with
    | some ke => rw [timestampHandler_of_unreadable g env hm ke.1 ke.2 hb]
    | none =>
      by_cases hu : env.tsaURL = []
      · rw [timestampHandler_of_no_url g env hm hb hu]
      · unfold timestampHandler
        simp only [hm, ioReadAll, hb, ne_eq, not_true_eq_false, if_false, hu]
        split <;> [skip; split <;> [skip; split <;> [skip; split]]]
        all_goals rfl
  · rw [timestampHandler_of_not_post g env hm]

/-- The package variables are left as they were by `generatorHandler`. -/
theorem generatorHandler_globals {SK PK : Type} (g : Globals) (env : GeneratorEnv SK PK) :
    (generatorHandler g env).globals = g := by
  unfold generatorHandler
  simp only []
  split <;> [skip; split <;> [skip; split <;> [skip; split]]]
  all_goals rfl

/-- The value handed to the JSON encoder: all four steps succeeded and the value holds their
encoded results. -/
theorem generatorHandler_encode_in_trace {SK PK : Type} (g : Globals)
    (env : GeneratorEnv SK PK) (c : CryptoComponents)
    (h : Effect.jsonEncode c ∈ (generatorHandler g env).trace) :
    ∃ privateKey pubKeyBytes proofOfPossession artifactSignature,
      env.newSigner = .ok privateKey ∧
      env.marshalPKIXPublicKey (env.publicKey privateKey) = .ok pubKeyBytes ∧
      env.signASN1 0 privateKey (sha256Sum256 (str "jdoe@redhat.com")) = .ok proofOfPossession ∧
      env.signASN1 1 privateKey g.artifactHash = .ok artifactSignature ∧
      c = { publicKeyBase64 := base64EncodeToString pubKeyBytes,
            signedEmailAddress := base64EncodeToString proofOfPossession,
            artifactHash := hexEncodeToString g.artifactHash,
            artifactSignature := base64EncodeToString artifactSignature } ∧
      (generatorHandler g env).w =
        (match env.jsonEncode c with
          | .error _ => headerSet newResponseWriter (str "Content-Type") (str "application/json")
          | .ok encoded =>
            write (headerSet newResponseWriter (str "Content-Type") (str "application/json"))
              encoded) := by
  revert h
  unfold generatorHandler
  simp only [signMessage]
  split
  · intro h; simp at h
  · split
    · intro h; simp at h
    · split
      · intro h; simp at h
      · split
        · intro h; simp at h
        · intro h
          simp only [List.mem_cons, reduceCtorEq, Effect.jsonEncode.injEq, List.mem_singleton,
            List.not_mem_nil, or_false, false_or] at h
          subst h
          exact ⟨_, _, _, _, by assumption, by assumption, by assumption, by assumption, rfl, rfl⟩

/-- The outcome when a step fails: status 500, the message of that step, and only the calls
up to that step. -/
theorem generatorHandler_of_failure {SK PK : Type} (g : Globals) (env : GeneratorEnv SK PK)
    (s : Step) (h : firstFailure g env = some s) :
    ∃ detail, generatorHandler g env =
      { globals := g, fatal := none, trace := stepsThrough g s,
        w := httpError newResponseWriter (stepMessage s ++ detail) 500 } := by
  cases h1 : env.newSigner with
  | error err =>
    simp only [firstFailure, h1, Option.some.injEq] at h
    subst h
    refine ⟨str ": " ++ err, ?_⟩
    simp only [generatorHandler, h1]
    rw [← List.append_assoc]
    rfl
  | ok sk =>
    cases h2 : env.marshalPKIXPublicKey (env.publicKey sk) with
    | error err =>
      simp only [firstFailure, h1, h2, Option.some.injEq] at h
      subst h
      refine ⟨str ": " ++ err, ?_⟩
      simp only [generatorHandler, h1, h2]
      rw [← List.append_assoc]
      rfl
    | ok pubKeyBytes =>
      cases h3 : signMessage env 0 sk (str "jdoe@redhat.com") with
      | error err =>
        simp only [firstFailure, h1, h2, h3, Option.some.injEq] at h
        subst h
        refine ⟨[], ?_⟩
        simp only [generatorHandler, h1, h2, h3]
        rw [List.append_nil]
        rfl
      | ok proofOfPossession =>
        cases h4 : env.signASN1 1 sk g.artifactHash with
        | error err =>
          simp only [firstFailure, h1, h2, h3, h4, Option.some.injEq] at h
          subst h
          refine ⟨str ": " ++ err, ?_⟩
          simp only [generatorHandler, h1, h2, h3, h4]
          rw [← List.append_assoc]
          rfl
        | ok artifactSignature =>
          simp [firstFailure, h1, h2, h3, h4] at h

/-- The handler `timestampHandler` never calls the JSON encoder of `generatorHandler`. -/
theorem timestampHandler_no_encode (g : Globals) (env : TimestampEnv) (c : CryptoComponents) :
    Effect.jsonEncode c ∉ (timestampHandler g env).trace := by
  by_cases hm : env.method = str "POST"
  · cases hb : env.body.failure with
    | some ke =>
      rw [timestampHandler_of_unreadable g env hm ke.1 ke.2 hb]
      simp
    | none =>
      by_cases hu : env.tsaURL = []
      · rw [timestampHandler_of_no_url g env hm hb hu]
        simp
      · unfold timestampHandler
        simp only [hm, ioReadAll, hb, ne_eq, not_true_eq_false, if_false, hu]
        split <;> [skip; split <;> [skip; split <;> [skip; split]]]
        all_goals simp
  · rw [timestampHandler_of_not_post g env hm]
    simp

/-- Each step has its own first 23 octets of message. -/
theorem stepMessage_take_injective (s s2 : Step)
    (h : (stepMessage s).take 23 = (stepMessage s2).take 23) : s = s2 := by
  cases s <;> cases s2 <;> first | rfl | exact absurd h (by decide)

theorem stepMessage_take_append (s : Step) (detail : Bytes) :
    (stepMessage s ++ detail).take 23 = (stepMessage s).take 23 := by
  apply List.take_append_of_le_length
  cases s <;> decide

/-- Every outcome of a process lifetime is the outcome of one request served with the
package variables the process started with. -/
theorem serveAll_mem {SK PK : Type} (g : Globals) (reqs : List (Request SK PK)) (o : Outcome)
    (h : o ∈ serveAll g reqs) : ∃ r : Request SK PK, o = serve g r := by
  induction reqs with
  | nil => simp [serveAll] at h
  | cons r rest ih =>
    have hg : (serve g r).globals = g := by
      cases r with
      | generatePayloads env => exact generatorHandler_globals g env
      | getTimestamp env => exact timestampHandler_globals g env
    unfold serveAll at h
    simp only [] at h
    split at h
    · simp only [List.mem_singleton] at h
      exact ⟨r, h⟩
    · rw [hg] at h
      simp only [List.mem_cons] at h
      rcases h with h | h
      · exact ⟨r, h⟩
      · exact ih h

/-! ## `generatorHandler`: failures -/

/-- Claim C8. When one of the four steps of `generatorHandler` fails, the response has
status 500 and a plain-text message that begins with the words naming that step; the
messages of two different steps always differ; no `CryptoComponents` value is encoded or
written; the calls made are exactly those up to the failing step, so no later step runs;
and the status is not 200. -/
theorem generatorHandler_step_failure {SK PK : Type} (g : Globals) (env : GeneratorEnv SK PK)
    (s : Step) (h : firstFailure g env = some s) :
    (generatorHandler g env).w.status = some 500 ∧
    (generatorHandler g env).w.status ≠ some 200 ∧
    (∃ detail, (generatorHandler g env).w.body = stepMessage s ++ detail) ∧
    headerGet (generatorHandler g env).w (str "Content-Type")
      = some (str "text/plain; charset=utf-8") ∧
    (generatorHandler g env).w.writes = 1 ∧
    (∀ c, Effect.jsonEncode c ∉ (generatorHandler g env).trace) ∧
    (generatorHandler g env).trace = stepsThrough g s ∧
    (∀ (SK2 PK2 : Type) (g2 : Globals) (env2 : GeneratorEnv SK2 PK2) (s2 : Step),
      firstFailure g2 env2 = some s2 → s2 ≠ s →
      (generatorHandler g2 env2).w.body ≠ (generatorHandler g env).w.body) := by
  obtain ⟨detail, hd⟩ := generatorHandler_of_failure g env s h
  have hbody : (generatorHandler g env).w.body = stepMessage s ++ (detail ++ str "\n") := by
    rw [hd]
    show (httpError newResponseWriter (stepMessage s ++ detail) 500).body = _
    rw [httpError_body, List.append_assoc]
  refine ⟨?_, ?_, ⟨_, hbody⟩, ?_, ?_, ?_, ?_, ?_⟩
  · rw [hd]; rfl
  · rw [hd]
    intro h2
    have h3 : some 500 = some 200 := h2
    simp at h3
  · rw [hd]; exact httpError_contentType _ _
  · rw [hd]; rfl
  · intro c
    rw [hd]
    cases s <;> simp [stepsThrough]
  · rw [hd]
  · intro SK2 PK2 g2 env2 s2 h2 hne heq
    obtain ⟨detail2, hd2⟩ := generatorHandler_of_failure g2 env2 s2 h2
    have hbody2 : (generatorHandler g2 env2).w.body
        = stepMessage s2 ++ (detail2 ++ str "\n") := by
      rw [hd2]
      show (httpError newResponseWriter (stepMessage s2 ++ detail2) 500).body = _
      rw [httpError_body, List.append_assoc]
    rw [hbody, hbody2] at heq
    have h3 := congrArg (List.take 23) heq
    rw [stepMessage_take_append, stepMessage_take_append] at h3
    exact hne (stepMessage_take_injective _ _ h3)

/-- Claim C8, at a concrete call: the public key cannot be marshalled. -/
theorem generatorHandler_step_failure_witness :
    (generatorHandler sampleGlobals
      (sampleGeneratorEnv (some .publicKeyMarshalling))).w.status = some 500 ∧
    (generatorHandler sampleGlobals (sampleGeneratorEnv (some .publicKeyMarshalling))).trace
      = [.newSigner, .marshalPKIXPublicKey] :=
  have h := generatorHandler_step_failure sampleGlobals
    (sampleGeneratorEnv (some .publicKeyMarshalling)) .publicKeyMarshalling (by decide)
  ⟨h.1, h.2.2.2.2.2.2.1⟩

/-! ## `generatorHandler`: the cached digest -/

/-- Claim C7. Let `init` succeed with package variables `g`. Then the cached digest has 32
octets; every outcome of every sequence of requests served in that process leaves the
package variables equal to `g`; every `CryptoComponents` value a handler encodes carries the
same `artifactHash`, the 64-character lowercase hex encoding of that one digest; and no
handler call, on any package variables, changes them. -/
theorem artifactHash_constant {SK PK : Type} (entropy : Except Bytes (Nat → Byte))
    (g : Globals) (hi : init entropy = .ok g) (reqs : List (Request SK PK)) :
    g.artifactHash.length = 32 ∧
    (∀ o ∈ serveAll g reqs, o.globals = g ∧
      ∀ c, Effect.jsonEncode c ∈ o.trace →
        c.artifactHash = hexEncodeToString g.artifactHash ∧
        c.artifactHash.length = 64 ∧
        (∀ ch ∈ c.artifactHash, ch ∈ hextable) ∧
        hexDecodeString c.artifactHash = some g.artifactHash) ∧
    (∀ (g2 : Globals) (r : Request SK PK), (serve g2 r).globals = g2) := by
  have hlen : g.artifactHash.length = 32 := by
    unfold init randRead at hi
    cases entropy with
    | error err => simp at hi
    | ok f =>
      simp only [Except.ok.injEq] at hi
      subst hi
      simp
  have hserve : ∀ (g2 : Globals) (r : Request SK PK), (serve g2 r).globals = g2 := by
    intro g2 r
    cases r with
    | generatePayloads env => exact generatorHandler_globals g2 env
    | getTimestamp env => exact timestampHandler_globals g2 env
  refine ⟨hlen, ?_, hserve⟩
  intro o ho
  obtain ⟨r, rfl⟩ := serveAll_mem g reqs o ho
  refine ⟨hserve g r, ?_⟩
  intro c hc
  cases r with
  | getTimestamp env => exact absurd hc (timestampHandler_no_encode g env c)
  | generatePayloads env =>
    obtain ⟨_, _, _, _, -, -, -, -, rfl, -⟩ := generatorHandler_encode_in_trace g env c hc
    refine ⟨rfl, ?_, hexEncode_lowercase _, hexDecode_encode _⟩
    show (hexEncodeToString g.artifactHash).length = 64
    rw [hexEncode_length, hlen]

/-- Claim C7, at a concrete process: an all-zero digest, then a generation, a timestamp
request and another generation. -/
theorem artifactHash_constant_witness :
    sampleGlobals.artifactHash.length = 32 ∧
    ∀ o ∈ serveAll sampleGlobals
        [Request.generatePayloads (sampleGeneratorEnv none),
         Request.getTimestamp (sampleTimestampEnv (str "POST") (str "http://tsa") (.error [])),
         Request.generatePayloads (sampleGeneratorEnv none)],
      o.globals = sampleGlobals ∧
      ∀ c, Effect.jsonEncode c ∈ o.trace →
        c.artifactHash = hexEncodeToString sampleGlobals.artifactHash :=
  have h := artifactHash_constant (.ok (fun _ => 0)) sampleGlobals rfl
    [Request.generatePayloads (sampleGeneratorEnv none),
     Request.getTimestamp (sampleTimestampEnv (str "POST") (str "http://tsa") (.error [])),
     Request.generatePayloads (sampleGeneratorEnv none)]
  ⟨h.1, fun o ho => ⟨(h.2.1 o ho).1, fun c hc => ((h.2.1 o ho).2 c hc).1⟩⟩

/-! ## `generatorHandler`: the signatures verify -/

/-- Claim C6. Let signing and verification form a correct signature scheme (a signature
made with a private key verifies under its public key) and let PKIX parsing invert PKIX
marshalling. Then for every `CryptoComponents` value that `generatorHandler` encodes there is
one private key, with public key `pub`, such that: `publicKeyBase64` decodes and parses to
`pub`; `artifactHash` hex-decodes to the cached digest; `artifactSignature` decodes to a
signature made with that private key over the cached digest itself, and it verifies under
`pub` against that digest; `signedEmailAddress` decodes to a signature made with the same
private key over the SHA-256 digest of `jdoe@redhat.com`, and it verifies under `pub`
against that digest. When the encoder succeeds the response has status 200 and the encoded
value as its body. -/
theorem generatorHandler_signatures_verify {SK PK : Type} (g : Globals)
    (env : GeneratorEnv SK PK) (verifyASN1 : PK → Bytes → Bytes → Bool)
    (parsePKIXPublicKey : Bytes → Option PK)
    (hsig : ∀ k priv digest sig, env.signASN1 k priv digest = .ok sig →
      verifyASN1 (env.publicKey priv) digest sig = true)
    (hpk : ∀ pub der, env.marshalPKIXPublicKey pub = .ok der →
      parsePKIXPublicKey der = some pub)
    (c : CryptoComponents) (hc : Effect.jsonEncode c ∈ (generatorHandler g env).trace) :
    ∃ priv pub sigArtifact sigEmail,
      env.newSigner = .ok priv ∧ pub = env.publicKey priv ∧
      (base64DecodeString c.publicKeyBase64).bind parsePKIXPublicKey = some pub ∧
      hexDecodeString c.artifactHash = some g.artifactHash ∧
      base64DecodeString c.artifactSignature = some sigArtifact ∧
      env.signASN1 1 priv g.artifactHash = .ok sigArtifact ∧
      verifyASN1 pub g.artifactHash sigArtifact = true ∧
      base64DecodeString c.signedEmailAddress = some sigEmail ∧
      env.signASN1 0 priv (sha256Sum256 (str "jdoe@redhat.com")) = .ok sigEmail ∧
      verifyASN1 pub (sha256Sum256 (str "jdoe@redhat.com")) sigEmail = true ∧
      (∀ encoded, env.jsonEncode c = .ok encoded →
        (generatorHandler g env).w.status = some 200 ∧
        (generatorHandler g env).w.body = encoded) := by
  obtain ⟨priv, der, sigEmail, sigArtifact, h1, h2, h3, h4, rfl, hw⟩ :=
    generatorHandler_encode_in_trace g env c hc
  refine ⟨priv, env.publicKey priv, sigArtifact, sigEmail, h1, rfl, ?_, hexDecode_encode _,
    base64Decode_encode _, h4, hsig _ _ _ _ h4, base64Decode_encode _, h3, hsig _ _ _ _ h3, ?_⟩
  · show (base64DecodeString (base64EncodeToString der)).bind parsePKIXPublicKey = _
    rw [base64Decode_encode]
    exact hpk _ _ h2
  · intro encoded he
    rw [hw, he]
    exact ⟨rfl, rfl⟩

/-- Claim C6, at a concrete call with the toy signature scheme. -/
theorem generatorHandler_signatures_verify_witness :
    ∃ (c : CryptoComponents) (sigArtifact : Bytes),
      Effect.jsonEncode c ∈ (generatorHandler sampleGlobals (sampleGeneratorEnv none)).trace ∧
      (base64DecodeString c.publicKeyBase64).bind sampleParsePKIX = some 7 ∧
      base64DecodeString c.artifactSignature = some sigArtifact ∧
      sampleVerify 7 sampleGlobals.artifactHash sigArtifact = true := by
  have hmem : Effect.jsonEncode
      { publicKeyBase64 := base64EncodeToString [7],
        signedEmailAddress :=
          base64EncodeToString (sha256Sum256 (str "jdoe@redhat.com") ++ [7]),
        artifactHash := hexEncodeToString sampleGlobals.artifactHash,
        artifactSignature := base64EncodeToString (sampleGlobals.artifactHash ++ [7]) } ∈
      (generatorHandler sampleGlobals (sampleGeneratorEnv none)).trace := by
    decide!
  obtain ⟨priv, pub, sigArtifact, sigEmail, h1, h2, h3, -, h5, -, h7, -⟩ :=
    generatorHandler_signatures_verify sampleGlobals (sampleGeneratorEnv none) sampleVerify
      sampleParsePKIX
      (by
        intro k priv digest sig h
        simp only [sampleGeneratorEnv, reduceCtorEq, and_false, or_self, if_false,
          Except.ok.injEq] at h
        subst h
        simp [sampleVerify, sampleGeneratorEnv])
      (by
        intro pub der h
        simp only [sampleGeneratorEnv, reduceCtorEq, if_false, Except.ok.injEq] at h
        subst h
        rfl)
      _ hmem
  have hp : priv = 7 := by
    have h8 : (Except.ok 7 : Except Bytes Byte) = .ok priv := h1
    simp only [Except.ok.injEq] at h8
    exact h8.symm
  subst hp
  subst h2
  exact ⟨_, sigArtifact, hmem, h3, h5, h7⟩

end CryptoHelper
